import Mathlib

/-!
# KonamiDDRPad-Linux: from HID reports to uinput events

A shallow embedding of `src/main.c`: the functions `Emit`,
`CreateVirtualDevice`, `ReadReport`, `CheckReportValueAndEmit` and `Loop`.

* A `uint8_t` is a natural number below 256 (`Byte`), the buffer
  `uint8_t report[27]` a function from the 27 indices to bytes.
* The uinput file descriptor is the list of `input_event` records written to
  it so far, oldest first; the result of `write` is dropped by the source, so
  the list is what the program sends.
* The HID device is a script of outcomes of the successive `hid_read` calls.
  `hid_read` blocks, so a run whose script is used up is a run that is still
  waiting in `hid_read`.
-/

namespace KonamiDDRPad

/-- A value of the C type `uint8_t`. -/
abbrev Byte := Fin 256

/-- The buffer `uint8_t report[27]`. -/
abbrev Report := Fin 27 → Byte

/-- Conversion of a C `int` value to a `uint8_t` argument. -/
def toUInt8 (n : Nat) : Byte := ⟨n % 256, Nat.mod_lt n (by decide)⟩

/-- Event type `EV_SYN` of `linux/input-event-codes.h`. -/
def EV_SYN : Nat := 0x00

/-- Event type `EV_KEY` of `linux/input-event-codes.h`. -/
def EV_KEY : Nat := 0x01

/-- Code `SYN_REPORT` of `linux/input-event-codes.h`. -/
def SYN_REPORT : Nat := 0

/-- Key code `BTN_SOUTH` of `linux/input-event-codes.h`. -/
def BTN_SOUTH : Nat := 0x130

/-- Key code `BTN_EAST` of `linux/input-event-codes.h`. -/
def BTN_EAST : Nat := 0x131

/-- Key code `BTN_NORTH` of `linux/input-event-codes.h`. -/
def BTN_NORTH : Nat := 0x133

/-- Key code `BTN_WEST` of `linux/input-event-codes.h`. -/
def BTN_WEST : Nat := 0x134

/-- Key code `BTN_SELECT` of `linux/input-event-codes.h`. -/
def BTN_SELECT : Nat := 0x13a

/-- Key code `BTN_START` of `linux/input-event-codes.h`. -/
def BTN_START : Nat := 0x13b

/-- Key code `BTN_MODE` of `linux/input-event-codes.h`. -/
def BTN_MODE : Nat := 0x13c

/-- Key code `BTN_DPAD_UP` of `linux/input-event-codes.h`. -/
def BTN_DPAD_UP : Nat := 0x220

/-- Key code `BTN_DPAD_DOWN` of `linux/input-event-codes.h`. -/
def BTN_DPAD_DOWN : Nat := 0x221

/-- Key code `BTN_DPAD_LEFT` of `linux/input-event-codes.h`. -/
def BTN_DPAD_LEFT : Nat := 0x222

/-- Key code `BTN_DPAD_RIGHT` of `linux/input-event-codes.h`. -/
def BTN_DPAD_RIGHT : Nat := 0x223

/-- Bus type `BUS_USB` of `linux/input.h`. -/
def BUS_USB : Nat := 0x03

/-- The record `struct input_event`: `type` and `code` are `__u16`, `value`
is `__s32`, and the time stamp is the pair `tv_sec`, `tv_usec`. -/
structure input_event where
  type : Nat
  code : Nat
  value : Int
  tv_sec : Int
  tv_usec : Int
deriving DecidableEq, Repr

/-- The function `Emit` (main.c 87-97): fills one `input_event` with the
code, the type, the value and a zero time stamp and writes it to `fd`.  The
`int` arguments `type` and `code` are stored in `__u16` fields. -/
def Emit (fd : List input_event) (type code : Nat) (val : Int) : List input_event :=
  fd ++ [⟨type % 65536, code % 65536, val, 0, 0⟩]

/-- The requests `CreateVirtualDevice` and `DestroyVirtualDevice` pass to
`ioctl`, each with its argument. -/
inductive Ioctl where
  | UI_SET_EVBIT (ev : Nat)
  | UI_SET_KEYBIT (key : Nat)
  | UI_DEV_SETUP (bustype vendor product : Nat) (name : String)
  | UI_DEV_CREATE
  | UI_DEV_DESTROY
deriving DecidableEq, Repr

/-- The function `CreateVirtualDevice` (main.c 99-135).  `opened` tells
whether `open("/dev/uinput", ...)` gave a descriptor; when it did not the
process exits (`none`).  Otherwise the result is the sequence of `ioctl`
requests made on the descriptor, in program order. -/
def CreateVirtualDevice (opened : Bool) (name : String) (vendor_id product_id : Nat) :
    Option (List Ioctl) :=
  if !opened then none
  else some
    [ Ioctl.UI_SET_EVBIT EV_KEY,
      Ioctl.UI_SET_KEYBIT BTN_DPAD_UP,
      Ioctl.UI_SET_KEYBIT BTN_DPAD_DOWN,
      Ioctl.UI_SET_KEYBIT BTN_DPAD_LEFT,
      Ioctl.UI_SET_KEYBIT BTN_DPAD_RIGHT,
      Ioctl.UI_SET_KEYBIT BTN_SELECT,
      Ioctl.UI_SET_KEYBIT BTN_START,
      Ioctl.UI_SET_KEYBIT BTN_NORTH,
      Ioctl.UI_SET_KEYBIT BTN_SOUTH,
      Ioctl.UI_SET_KEYBIT BTN_EAST,
      Ioctl.UI_SET_KEYBIT BTN_WEST,
      Ioctl.UI_SET_KEYBIT BTN_MODE,
      Ioctl.UI_DEV_SETUP BUS_USB (vendor_id % 65536) (product_id % 65536) name,
      Ioctl.UI_DEV_CREATE ]

/-- Outcome of one call of the library function `hid_read(handle, buf, 27)`:
an error, or a report of the pad stored in the buffer. -/
inductive HidRead where
  | error
  | data (r : Report)

/-- The library call `hid_read(handle, report, 27)` under the outcome `o`:
the value returned and the buffer afterwards.  An error returns `-1` and
leaves the buffer as it was; otherwise the 27 bytes of the report are in
the buffer and their number is returned. -/
def hid_read (o : HidRead) (report : Report) : Int × Report :=
  match o with
  | HidRead.error => (-1, report)
  | HidRead.data r => (27, r)

/-- The function `ReadReport` (main.c 184-192): `-1` when `hid_read`
returned `-1`, and `0` otherwise; the second component is the buffer. -/
def ReadReport (o : HidRead) (report : Report) : Int × Report :=
  let res := hid_read o report
  if res.1 == -1 then (-1, res.2) else (0, res.2)

/-- The function `CheckReportValueAndEmit` (main.c 194-204). -/
def CheckReportValueAndEmit (current_value previous_value : Byte) (code : Nat)
    (fd : List input_event) : List input_event :=
  if current_value > previous_value then
    Emit fd EV_KEY code 1
  else if current_value < previous_value then
    Emit fd EV_KEY code 0
  else
    fd

/-- One pass through the body of the `while` of `Loop` after a successful
read (main.c 215-228): the eleven comparisons in program order, then the
sync record. -/
def LoopCycle (report previous_report : Report) (fd : List input_event) : List input_event :=
  let fd := CheckReportValueAndEmit (report 7) (previous_report 7) BTN_DPAD_RIGHT fd
  let fd := CheckReportValueAndEmit (report 8) (previous_report 8) BTN_DPAD_LEFT fd
  let fd := CheckReportValueAndEmit (report 9) (previous_report 9) BTN_DPAD_UP fd
  let fd := CheckReportValueAndEmit (report 10) (previous_report 10) BTN_DPAD_DOWN fd
  let fd := CheckReportValueAndEmit (report 11) (previous_report 11) BTN_NORTH fd
  let fd := CheckReportValueAndEmit (report 12) (previous_report 12) BTN_EAST fd
  let fd := CheckReportValueAndEmit (report 13) (previous_report 13) BTN_SOUTH fd
  let fd := CheckReportValueAndEmit (report 14) (previous_report 14) BTN_WEST fd
  let fd := CheckReportValueAndEmit (toUInt8 ((report 1).val &&& 0x02))
    (toUInt8 ((previous_report 1).val &&& 0x02)) BTN_START fd
  let fd := CheckReportValueAndEmit (toUInt8 ((report 1).val &&& 0x01))
    (toUInt8 ((previous_report 1).val &&& 0x01)) BTN_SELECT fd
  let fd := CheckReportValueAndEmit (toUInt8 ((report 1).val &&& 0x10))
    (toUInt8 ((previous_report 1).val &&& 0x10)) BTN_MODE fd
  Emit fd EV_SYN SYN_REPORT 0

/-- What a run of `Loop` leaves behind: the records written to the uinput
descriptor, the outcomes of the script that no `hid_read` asked for, and
whether `Loop` returned (`false`: the script ran out, the run is waiting in
`hid_read`). -/
structure LoopResult where
  events : List input_event
  unread : List HidRead
  returned : Bool

/-- The `while(1)` of `Loop` (main.c 211-230), by recursion on the script of
read outcomes. -/
def LoopWhile (report previous_report : Report) (fd : List input_event) :
    List HidRead → LoopResult
  | [] => ⟨fd, [], false⟩
  | o :: script =>
    let rd := ReadReport o report
    if rd.1 != 0 then ⟨fd, script, true⟩
    else
      let report := rd.2
      let fd := LoopCycle report previous_report fd
      -- memcpy(previous_report, report, 27)
      LoopWhile report report fd script

/-- The function `Loop` (main.c 207-231).  `report` and `previous_report`
are the contents the two local buffers happen to have on entry; `fd` is the
uinput descriptor.  The value `ReadReport` returns for the first read is
not looked at. -/
def Loop (report previous_report : Report) (fd : List input_event) :
    List HidRead → LoopResult
  | [] => ⟨fd, [], false⟩
  | o :: script =>
    let rd := ReadReport o previous_report
    LoopWhile report rd.2 fd script

/-- The all-zero report. -/
def zeroReport : Report := fun _ => 0

/-- The report `r` with byte `i` replaced by `v`. -/
def setByte (r : Report) (i : Fin 27) (v : Byte) : Report :=
  fun j => if j = i then v else r j

/-- A key record as `Emit` writes it. -/
def keyEvent (code : Nat) (val : Int) : input_event := ⟨EV_KEY, code, val, 0, 0⟩

/-- The sync record as `Emit` writes it. -/
def syncEvent : input_event := ⟨EV_SYN, SYN_REPORT, 0, 0, 0⟩

/-- The enumeration order of the buttons as the specification gives it:
Right, Left, Up, Down, North, East, South, West, Start, Select, Mode. -/
def specButtonOrder : List Nat :=
  [BTN_DPAD_RIGHT, BTN_DPAD_LEFT, BTN_DPAD_UP, BTN_DPAD_DOWN, BTN_NORTH, BTN_EAST,
    BTN_SOUTH, BTN_WEST, BTN_START, BTN_SELECT, BTN_MODE]

/-- The button the specification assigns to a byte offset: 7 Right, 8 Left,
9 Up, 10 Down, 11 North, 12 East, 13 South, 14 West. -/
def specButtonAtOffset (i : Nat) : Option Nat :=
  if i = 7 then some BTN_DPAD_RIGHT
  else if i = 8 then some BTN_DPAD_LEFT
  else if i = 9 then some BTN_DPAD_UP
  else if i = 10 then some BTN_DPAD_DOWN
  else if i = 11 then some BTN_NORTH
  else if i = 12 then some BTN_EAST
  else if i = 13 then some BTN_SOUTH
  else if i = 14 then some BTN_WEST
  else none

/-- The events the specification asks for one bit-mapped button of byte 1:
none when the masked bit is the same in both reports, else a press when the
bit is set in `curr` and a release when it is clear in `curr`. -/
def specBitEvents (prev curr : Report) (mask code : Nat) : List input_event :=
  if (curr 1).val &&& mask = (prev 1).val &&& mask then []
  else if (curr 1).val &&& mask ≠ 0 then [keyEvent code 1]
  else [keyEvent code 0]

/-- The event types registered by the `UI_SET_EVBIT` requests of a sequence
of `ioctl` requests. -/
def registeredEvbits (l : List Ioctl) : List Nat :=
  l.filterMap (fun q => match q with
    | Ioctl.UI_SET_EVBIT ev => some ev
    | _ => none)

/-- The key codes registered by the `UI_SET_KEYBIT` requests of a sequence
of `ioctl` requests. -/
def registeredKeybits (l : List Ioctl) : List Nat :=
  l.filterMap (fun q => match q with
    | Ioctl.UI_SET_KEYBIT key => some key
    | _ => none)

/-- The requests made before the first `UI_DEV_CREATE`. -/
def beforeCreate (l : List Ioctl) : List Ioctl :=
  l.takeWhile (fun q => q != Ioctl.UI_DEV_CREATE)

/-! ## Auxiliary lemmas -/

theorem check_append (c p : Byte) (code : Nat) (fd : List input_event) :
    CheckReportValueAndEmit c p code fd = fd ++ CheckReportValueAndEmit c p code [] := by
  unfold CheckReportValueAndEmit Emit
  split_ifs <;> simp

theorem check_same (c : Byte) (code : Nat) (fd : List input_event) :
    CheckReportValueAndEmit c c code fd = fd := by
  simp [CheckReportValueAndEmit]

theorem check_press (c p : Byte) (code : Nat) (h : p < c) :
    CheckReportValueAndEmit c p code [] = [keyEvent (code % 65536) 1] := by
  simp [CheckReportValueAndEmit, Emit, keyEvent, EV_KEY, h]

theorem check_release (c p : Byte) (code : Nat) (h : c < p) :
    CheckReportValueAndEmit c p code [] = [keyEvent (code % 65536) 0] := by
  have h2 : ¬ p < c := not_lt.mpr (le_of_lt h)
  simp [CheckReportValueAndEmit, Emit, keyEvent, EV_KEY, h, h2]

theorem check_cases (c p : Byte) (code : Nat) :
    CheckReportValueAndEmit c p code [] = [] ∨
    CheckReportValueAndEmit c p code [] = [keyEvent (code % 65536) 1] ∨
    CheckReportValueAndEmit c p code [] = [keyEvent (code % 65536) 0] := by
  rcases lt_trichotomy c p with h | h | h
  · exact Or.inr (Or.inr (check_release c p code h))
  · subst h; exact Or.inl (check_same c code [])
  · exact Or.inr (Or.inl (check_press c p code h))

/-- The records of one cycle, one block per comparison. -/
theorem LoopCycle_blocks (report previous_report : Report) (fd : List input_event) :
    LoopCycle report previous_report fd =
      fd ++ (CheckReportValueAndEmit (report 7) (previous_report 7) BTN_DPAD_RIGHT [] ++
        (CheckReportValueAndEmit (report 8) (previous_report 8) BTN_DPAD_LEFT [] ++
        (CheckReportValueAndEmit (report 9) (previous_report 9) BTN_DPAD_UP [] ++
        (CheckReportValueAndEmit (report 10) (previous_report 10) BTN_DPAD_DOWN [] ++
        (CheckReportValueAndEmit (report 11) (previous_report 11) BTN_NORTH [] ++
        (CheckReportValueAndEmit (report 12) (previous_report 12) BTN_EAST [] ++
        (CheckReportValueAndEmit (report 13) (previous_report 13) BTN_SOUTH [] ++
        (CheckReportValueAndEmit (report 14) (previous_report 14) BTN_WEST [] ++
        (CheckReportValueAndEmit (toUInt8 ((report 1).val &&& 0x02))
          (toUInt8 ((previous_report 1).val &&& 0x02)) BTN_START [] ++
        (CheckReportValueAndEmit (toUInt8 ((report 1).val &&& 0x01))
          (toUInt8 ((previous_report 1).val &&& 0x01)) BTN_SELECT [] ++
        (CheckReportValueAndEmit (toUInt8 ((report 1).val &&& 0x10))
          (toUInt8 ((previous_report 1).val &&& 0x10)) BTN_MODE [] ++
        [syncEvent]))))))))))) := by
  simp only [LoopCycle]
  rw [check_append _ _ BTN_MODE, check_append _ _ BTN_SELECT, check_append _ _ BTN_START,
    check_append _ _ BTN_WEST, check_append _ _ BTN_SOUTH, check_append _ _ BTN_EAST,
    check_append _ _ BTN_NORTH, check_append _ _ BTN_DPAD_DOWN, check_append _ _ BTN_DPAD_UP,
    check_append _ _ BTN_DPAD_LEFT, check_append _ _ BTN_DPAD_RIGHT]
  simp [Emit, syncEvent, EV_SYN, SYN_REPORT]

theorem LoopCycle_append (report previous_report : Report) (fd : List input_event) :
    LoopCycle report previous_report fd = fd ++ LoopCycle report previous_report [] := by
  rw [LoopCycle_blocks report previous_report fd, LoopCycle_blocks report previous_report []]
  simp

/-! ## The claims -/

/-- C3: for every report R, one cycle with prev = R and curr = R writes no key
record at all and exactly one sync record. -/
theorem C3_identical_reports_only_sync (R : Report) :
    LoopCycle R R [] = [syncEvent] := by
  simp [LoopCycle_blocks, check_same]

theorem check_codes_sublist (c p : Byte) (code : Nat) (h : code < 65536) :
    ((CheckReportValueAndEmit c p code []).map input_event.code).Sublist [code] := by
  rcases check_cases c p code with e | e | e <;>
    simp [e, keyEvent, Nat.mod_eq_of_lt h]

theorem check_mem (c p : Byte) (code : Nat) (e : input_event)
    (h : e ∈ CheckReportValueAndEmit c p code []) :
    e.type = EV_KEY ∧ (e.value = 0 ∨ e.value = 1) := by
  rcases check_cases c p code with h1 | h1 | h1 <;> rw [h1] at h <;>
    simp [keyEvent] at h <;> simp [h]

/-- C2: for every pair of reports, the records of one cycle are a list of key
records followed by one sync record; the key records are at most eleven, their
codes follow the fixed enumeration order Right, Left, Up, Down, North, East,
South, West, Start, Select, Mode with no code twice, each has the key type and
value 0 or 1, and none of them is a sync record. -/
theorem C2_cycle_shape (prev curr : Report) :
    ∃ keys : List input_event,
      LoopCycle curr prev [] = keys ++ [syncEvent] ∧
      keys.length ≤ 11 ∧
      (keys.map input_event.code).Sublist specButtonOrder ∧
      (keys.map input_event.code).Nodup ∧
      (∀ e ∈ keys, e.type = EV_KEY ∧ (e.value = 0 ∨ e.value = 1)) ∧
      (∀ e ∈ keys, e.type ≠ EV_SYN) := by
  have hsub : ((CheckReportValueAndEmit (curr 7) (prev 7) BTN_DPAD_RIGHT [] ++
        (CheckReportValueAndEmit (curr 8) (prev 8) BTN_DPAD_LEFT [] ++
        (CheckReportValueAndEmit (curr 9) (prev 9) BTN_DPAD_UP [] ++
        (CheckReportValueAndEmit (curr 10) (prev 10) BTN_DPAD_DOWN [] ++
        (CheckReportValueAndEmit (curr 11) (prev 11) BTN_NORTH [] ++
        (CheckReportValueAndEmit (curr 12) (prev 12) BTN_EAST [] ++
        (CheckReportValueAndEmit (curr 13) (prev 13) BTN_SOUTH [] ++
        (CheckReportValueAndEmit (curr 14) (prev 14) BTN_WEST [] ++
        (CheckReportValueAndEmit (toUInt8 ((curr 1).val &&& 0x02))
          (toUInt8 ((prev 1).val &&& 0x02)) BTN_START [] ++
        (CheckReportValueAndEmit (toUInt8 ((curr 1).val &&& 0x01))
          (toUInt8 ((prev 1).val &&& 0x01)) BTN_SELECT [] ++
        CheckReportValueAndEmit (toUInt8 ((curr 1).val &&& 0x10))
          (toUInt8 ((prev 1).val &&& 0x10)) BTN_MODE [])))))))))).map
        input_event.code).Sublist specButtonOrder := by
    simp only [List.map_append]
    exact (check_codes_sublist _ _ BTN_DPAD_RIGHT (by decide)).append
      ((check_codes_sublist _ _ BTN_DPAD_LEFT (by decide)).append
      ((check_codes_sublist _ _ BTN_DPAD_UP (by decide)).append
      ((check_codes_sublist _ _ BTN_DPAD_DOWN (by decide)).append
      ((check_codes_sublist _ _ BTN_NORTH (by decide)).append
      ((check_codes_sublist _ _ BTN_EAST (by decide)).append
      ((check_codes_sublist _ _ BTN_SOUTH (by decide)).append
      ((check_codes_sublist _ _ BTN_WEST (by decide)).append
      ((check_codes_sublist _ _ BTN_START (by decide)).append
      ((check_codes_sublist _ _ BTN_SELECT (by decide)).append
      (check_codes_sublist _ _ BTN_MODE (by decide)))))))))))
  refine ⟨_, ?_, ?_, hsub, ?_, ?_, ?_⟩
  · rw [LoopCycle_blocks]
    simp only [List.nil_append, List.append_assoc]
  · have h := hsub.length_le
    simpa [specButtonOrder] using h
  · exact hsub.nodup (by decide)
  · intro e he
    simp only [List.mem_append] at he
    rcases he with h | h | h | h | h | h | h | h | h | h | h <;>
      exact check_mem _ _ _ e h
  · intro e he
    simp only [List.mem_append] at he
    have hk : e.type = EV_KEY := by
      rcases he with h | h | h | h | h | h | h | h | h | h | h <;>
        exact (check_mem _ _ _ e h).1
    rw [hk]; decide

/-- C4: for every offset i in 7..14 with the button the specification assigns
to it, and every pair of reports that agree on every byte except byte i, where
prev[i] = 0 and curr[i] is nonzero: one cycle writes exactly two records, a
press (value 1) of that button and then one sync record. -/
theorem C4_single_byte_press (prev curr : Report) (i : Fin 27)
    (hi : 7 ≤ i.val ∧ i.val ≤ 14)
    (hagree : ∀ j : Fin 27, j ≠ i → prev j = curr j)
    (hprev : prev i = 0) (hcurr : curr i ≠ 0) :
    ∃ code, specButtonAtOffset i.val = some code ∧
      LoopCycle curr prev [] = [keyEvent code 1, syncEvent] := by
  have hlt : prev i < curr i := by
    rw [hprev]; exact Fin.pos_iff_ne_zero.mpr hcurr
  obtain ⟨h7, h14⟩ := hi
  have hcases : i = 7 ∨ i = 8 ∨ i = 9 ∨ i = 10 ∨ i = 11 ∨ i = 12 ∨ i = 13 ∨ i = 14 := by
    simp only [Fin.ext_iff]
    have : ((7 : Fin 27) : Nat) = 7 := rfl
    omega
  rcases hcases with h | h | h | h | h | h | h | h <;> subst h <;>
    refine ⟨_, rfl, ?_⟩ <;>
    rw [LoopCycle_blocks, check_press _ _ _ hlt] <;>
    simp [hagree, check_same] <;> rfl

/-- Witness of C4 at offset 7: all-zero report, then byte 7 set to 1. -/
theorem C4_single_byte_press_witness :
    ∃ code, specButtonAtOffset 7 = some code ∧
      LoopCycle (setByte zeroReport 7 1) zeroReport [] = [keyEvent code 1, syncEvent] :=
  C4_single_byte_press zeroReport (setByte zeroReport 7 1) 7 (by decide)
    (by decide) (by decide) (by decide)

set_option maxRecDepth 100000 in
theorem and_mask_cases : ∀ a : Byte,
    (a.val &&& 0x02 = 0 ∨ a.val &&& 0x02 = 0x02) ∧
    (a.val &&& 0x01 = 0 ∨ a.val &&& 0x01 = 0x01) ∧
    (a.val &&& 0x10 = 0 ∨ a.val &&& 0x10 = 0x10) := by decide

set_option maxRecDepth 100000 in
theorem or_start_bits : ∀ a : Byte,
    (a.val ||| 0x02) &&& 0x02 = 0x02 ∧
    (a.val ||| 0x02) &&& 0x01 = a.val &&& 0x01 ∧
    (a.val ||| 0x02) &&& 0x10 = a.val &&& 0x10 := by decide

set_option maxRecDepth 100000 in
theorem or_select_mode_bits : ∀ a : Byte,
    (a.val ||| 0x11) &&& 0x02 = a.val &&& 0x02 ∧
    (a.val ||| 0x11) &&& 0x01 = 0x01 ∧
    (a.val ||| 0x11) &&& 0x10 = 0x10 ∧
    (a.val &&& 0x11 = 0 → a.val &&& 0x01 = 0 ∧ a.val &&& 0x10 = 0) := by decide

/-- A comparison of two masked bits writes what the specification asks
for a bit-mapped button. -/
theorem check_bit (prev curr : Report) (mask code : Nat)
    (hm : mask = 0x02 ∨ mask = 0x01 ∨ mask = 0x10) (hcode : code < 65536) :
    CheckReportValueAndEmit (toUInt8 ((curr 1).val &&& mask))
      (toUInt8 ((prev 1).val &&& mask)) code [] = specBitEvents prev curr mask code := by
  have hc := and_mask_cases (curr 1)
  have hp := and_mask_cases (prev 1)
  rcases hm with h | h | h <;> subst h
  · rcases hc.1 with c | c <;> rcases hp.1 with q | q <;>
      simp [c, q, specBitEvents, CheckReportValueAndEmit, Emit, keyEvent, toUInt8, EV_KEY,
        Nat.mod_eq_of_lt hcode]
  · rcases hc.2.1 with c | c <;> rcases hp.2.1 with q | q <;>
      simp [c, q, specBitEvents, CheckReportValueAndEmit, Emit, keyEvent, toUInt8, EV_KEY,
        Nat.mod_eq_of_lt hcode]
  · rcases hc.2.2 with c | c <;> rcases hp.2.2 with q | q <;>
      simp [c, q, specBitEvents, CheckReportValueAndEmit, Emit, keyEvent, toUInt8, EV_KEY,
        Nat.mod_eq_of_lt hcode]

/-- One cycle on two reports that agree outside byte 1. -/
theorem LoopCycle_byte1 (prev curr : Report) (hagree : ∀ j : Fin 27, j ≠ 1 → prev j = curr j) :
    LoopCycle curr prev [] =
      specBitEvents prev curr 0x02 BTN_START ++ (specBitEvents prev curr 0x01 BTN_SELECT ++
        (specBitEvents prev curr 0x10 BTN_MODE ++ [syncEvent])) := by
  rw [LoopCycle_blocks,
    check_bit prev curr 0x02 BTN_START (by simp) (by decide),
    check_bit prev curr 0x01 BTN_SELECT (by simp) (by decide),
    check_bit prev curr 0x10 BTN_MODE (by simp) (by decide)]
  simp [hagree, check_same]

/-- C5: for every pair of reports that agree on every byte except byte 1, the
records of one cycle are: a Start record exactly when bit 0x02 of byte 1
differs, then a Select record exactly when bit 0x01 differs, then a Mode record
exactly when bit 0x10 differs, each a press when the bit is set in curr and a
release when it is clear in curr, then the sync record, and nothing for the
byte-mapped buttons.  Setting only bit 0x02 writes a Start press and the sync
record; setting bits 0x01 and 0x10 together writes a Select press, a Mode press
and the sync record. -/
theorem C5_bit_mapped_buttons (prev curr : Report)
    (hagree : ∀ j : Fin 27, j ≠ 1 → prev j = curr j) :
    LoopCycle curr prev [] =
      specBitEvents prev curr 0x02 BTN_START ++ specBitEvents prev curr 0x01 BTN_SELECT ++
        specBitEvents prev curr 0x10 BTN_MODE ++ [syncEvent] ∧
    ((prev 1).val &&& 0x02 = 0 → (curr 1).val = (prev 1).val ||| 0x02 →
      LoopCycle curr prev [] = [keyEvent BTN_START 1, syncEvent]) ∧
    ((prev 1).val &&& 0x11 = 0 → (curr 1).val = (prev 1).val ||| 0x11 →
      LoopCycle curr prev [] = [keyEvent BTN_SELECT 1, keyEvent BTN_MODE 1, syncEvent]) := by
  refine ⟨?_, ?_, ?_⟩
  · rw [LoopCycle_byte1 prev curr hagree]
    simp
  · intro h0 h1
    have hb := or_start_bits (prev 1)
    rw [LoopCycle_byte1 prev curr hagree]
    simp [specBitEvents, h1, hb.1, hb.2.1, hb.2.2, h0]
  · intro h0 h1
    have hb := or_select_mode_bits (prev 1)
    have hz := hb.2.2.2 h0
    rw [LoopCycle_byte1 prev curr hagree]
    simp [specBitEvents, h1, hb.1, hb.2.1, hb.2.2.1, hz.1, hz.2]

/-- Witness of C5: byte 1 goes from 0x00 to 0x11 in an otherwise zero report. -/
theorem C5_bit_mapped_buttons_witness :
    (∀ j : Fin 27, j ≠ 1 → zeroReport j = setByte zeroReport 1 0x11 j) ∧
    LoopCycle (setByte zeroReport 1 0x11) zeroReport [] =
      [keyEvent BTN_SELECT 1, keyEvent BTN_MODE 1, syncEvent] :=
  ⟨by decide, (C5_bit_mapped_buttons zeroReport (setByte zeroReport 1 0x11) (by decide)).2.2
    (by decide) (by decide)⟩

theorem LoopWhile_data (report previous_report r : Report) (fd : List input_event)
    (script : List HidRead) :
    LoopWhile report previous_report fd (HidRead.data r :: script) =
      LoopWhile r r (LoopCycle r previous_report fd) script := by
  simp [LoopWhile, ReadReport, hid_read]

theorem LoopWhile_error (report previous_report : Report) (fd : List input_event)
    (script : List HidRead) :
    LoopWhile report previous_report fd (HidRead.error :: script) = ⟨fd, script, true⟩ := by
  simp [LoopWhile, ReadReport, hid_read]

/-- The records of the cycles of a run: report `i` against report `i - 1`. -/
theorem LoopWhile_run (rs : List Report) :
    ∀ (report previous_report : Report) (fd : List input_event) (rest : List HidRead),
      LoopWhile report previous_report fd (rs.map HidRead.data ++ HidRead.error :: rest) =
        ⟨fd ++ (List.zip (previous_report :: rs) rs).flatMap (fun p => LoopCycle p.2 p.1 []),
          rest, true⟩ := by
  induction rs with
  | nil => intro report previous_report fd rest; simp [LoopWhile_error]
  | cons r rs ih =>
    intro report previous_report fd rest
    rw [List.map_cons, List.cons_append, LoopWhile_data, ih r r _ rest,
      LoopCycle_append r previous_report fd]
    simp

theorem Loop_data (report previous_report r0 : Report) (fd : List input_event)
    (script : List HidRead) :
    Loop report previous_report fd (HidRead.data r0 :: script) =
      LoopWhile report r0 fd script := by
  simp [Loop, ReadReport, hid_read]

theorem Loop_error (report previous_report : Report) (fd : List input_event)
    (script : List HidRead) :
    Loop report previous_report fd (HidRead.error :: script) =
      LoopWhile report previous_report fd script := by
  simp [Loop, ReadReport, hid_read]

theorem cycles_getLast (rs : List Report) :
    ∀ prev : Report,
      ((List.zip (prev :: rs) rs).flatMap (fun p => LoopCycle p.2 p.1 [])).getLast? =
        rs.getLast?.map (fun _ => syncEvent) := by
  induction rs with
  | nil => intro prev; simp
  | cons r rs ih =>
    intro prev
    have h := ih r
    cases rs with
    | nil => simp [LoopCycle_blocks]
    | cons r2 rs2 =>
      simp only [List.zip_cons_cons, List.flatMap_cons] at h ⊢
      rw [List.getLast?_append, h, List.getLast?_cons_cons]
      cases hl : (r2 :: rs2).getLast? with
      | none => simp at hl
      | some x => simp

/-- C6: for every first report r0 and every sequence r1..rn of reports read
after it, followed by a failed read, the records Loop writes are the
concatenation, for i = 1..n in order, of the records of one cycle on
(prev = r(i-1), curr = r(i)); the first read writes nothing.  For the reports
all-zero, byte 7 = 1, all-zero this is press(Right), sync, release(Right),
sync. -/
theorem C6_loop_concatenates_cycles (report previous_report r0 : Report) (rs : List Report)
    (rest : List HidRead) :
    (Loop report previous_report []
        (HidRead.data r0 :: (rs.map HidRead.data ++ HidRead.error :: rest))).events =
      (List.zip (r0 :: rs) rs).flatMap (fun p => LoopCycle p.2 p.1 []) ∧
    (Loop report previous_report [] (HidRead.data r0 :: HidRead.error :: rest)).events = [] ∧
    (Loop report previous_report []
        [HidRead.data zeroReport, HidRead.data (setByte zeroReport 7 1),
          HidRead.data zeroReport, HidRead.error]).events =
      [keyEvent BTN_DPAD_RIGHT 1, syncEvent, keyEvent BTN_DPAD_RIGHT 0, syncEvent] := by
  refine ⟨?_, ?_, ?_⟩
  · rw [Loop_data, LoopWhile_run]
    simp
  · rw [Loop_data, LoopWhile_error]
  · rw [Loop_data, LoopWhile_data, LoopWhile_data, LoopWhile_error]
    decide

/-- C8: when a read fails after a successful first read and n successful
cycle reads, Loop returns and the outcomes after the failure are never asked
for; the records written are those of the run that stops after the n cycles,
that is the concatenation of the n cycles, and the last of them (if there is
one) is the sync record of cycle n. -/
theorem C8_read_failure_ends_loop (report previous_report r0 : Report) (rs : List Report)
    (rest : List HidRead) :
    (Loop report previous_report []
        (HidRead.data r0 :: (rs.map HidRead.data ++ HidRead.error :: rest))).returned = true ∧
    (Loop report previous_report []
        (HidRead.data r0 :: (rs.map HidRead.data ++ HidRead.error :: rest))).unread = rest ∧
    (Loop report previous_report []
        (HidRead.data r0 :: (rs.map HidRead.data ++ HidRead.error :: rest))).events =
      (Loop report previous_report [] (HidRead.data r0 :: rs.map HidRead.data)).events ∧
    (Loop report previous_report []
        (HidRead.data r0 :: (rs.map HidRead.data ++ HidRead.error :: rest))).events =
      (List.zip (r0 :: rs) rs).flatMap (fun p => LoopCycle p.2 p.1 []) ∧
    (Loop report previous_report []
        (HidRead.data r0 :: (rs.map HidRead.data ++ HidRead.error :: rest))).events.getLast? =
      rs.getLast?.map (fun _ => syncEvent) := by
  have hblocked : ∀ (l : List Report) (rp pr : Report) (fd : List input_event),
      (LoopWhile rp pr fd (l.map HidRead.data)).events =
        fd ++ (List.zip (pr :: l) l).flatMap (fun p => LoopCycle p.2 p.1 []) := by
    intro l
    induction l with
    | nil => intro rp pr fd; simp [LoopWhile]
    | cons r l ih =>
      intro rp pr fd
      rw [List.map_cons, LoopWhile_data, ih r r _, LoopCycle_append r pr fd]
      simp
  rw [Loop_data, LoopWhile_run, Loop_data, hblocked]
  exact ⟨rfl, rfl, by simp, by simp, by simpa using cycles_getLast rs r0⟩

theorem check_mem_iff (c p : Byte) (code : Nat) (e : input_event) :
    e ∈ CheckReportValueAndEmit c p code [] ↔
      (p < c ∧ e = keyEvent (code % 65536) 1) ∨ (c < p ∧ e = keyEvent (code % 65536) 0) := by
  rcases lt_trichotomy c p with h | h | h
  · have h2 : ¬ p < c := not_lt.mpr (le_of_lt h)
    simp [check_release c p code h, h, h2]
  · subst h; simp [check_same]
  · have h2 : ¬ c < p := not_lt.mpr (le_of_lt h)
    simp [check_press c p code h, h, h2]

theorem LoopCycle_mem (report previous_report : Report) (e : input_event)
    (h : e ∈ LoopCycle report previous_report []) :
    (e.type = EV_KEY ∧ e.code ∈ specButtonOrder) ∨ e = syncEvent := by
  rw [LoopCycle_blocks] at h
  simp only [List.nil_append, List.mem_append, check_mem_iff, List.mem_singleton] at h
  rcases h with h | h | h | h | h | h | h | h | h | h | h | h
  all_goals first
    | exact Or.inr h
    | (rcases h with ⟨_, h⟩ | ⟨_, h⟩ <;> subst h <;> left <;>
        exact ⟨rfl, by decide⟩)

theorem LoopWhile_mem (script : List HidRead) :
    ∀ (report previous_report : Report) (fd : List input_event) (e : input_event),
      e ∈ (LoopWhile report previous_report fd script).events →
        e ∈ fd ∨ (e.type = EV_KEY ∧ e.code ∈ specButtonOrder) ∨ e = syncEvent := by
  induction script with
  | nil => intro report previous_report fd e h; exact Or.inl (by simpa [LoopWhile] using h)
  | cons o script ih =>
    intro report previous_report fd e h
    cases o with
    | error => rw [LoopWhile_error] at h; exact Or.inl h
    | data r =>
      rw [LoopWhile_data, LoopCycle_append] at h
      rcases ih r r _ e h with h1 | h1
      · rcases List.mem_append.mp h1 with h2 | h2
        · exact Or.inl h2
        · exact Or.inr (LoopCycle_mem r previous_report e h2)
      · exact Or.inr h1

theorem Loop_mem (script : List HidRead) (report previous_report : Report) (e : input_event)
    (h : e ∈ (Loop report previous_report [] script).events) :
    (e.type = EV_KEY ∧ e.code ∈ specButtonOrder) ∨ e = syncEvent := by
  cases script with
  | nil => simp [Loop] at h
  | cons o script =>
    cases o with
    | error =>
      rw [Loop_error] at h
      rcases LoopWhile_mem script _ _ _ e h with h1 | h1
      · simp at h1
      · exact h1
    | data r =>
      rw [Loop_data] at h
      rcases LoopWhile_mem script _ _ _ e h with h1 | h1
      · simp at h1
      · exact h1

/-- C1 (the code at the failing input): byte 7 (Right) is nonzero in both
reports, 1 in prev and 2 in curr, and the cycle writes a press of Right; with
the two reports exchanged it writes a release of Right. -/
theorem C1_event_for_held_button :
    (setByte zeroReport 7 1) 7 ≠ 0 ∧ (setByte zeroReport 7 2) 7 ≠ 0 ∧
    LoopCycle (setByte zeroReport 7 2) (setByte zeroReport 7 1) [] =
      [keyEvent BTN_DPAD_RIGHT 1, syncEvent] ∧
    LoopCycle (setByte zeroReport 7 1) (setByte zeroReport 7 2) [] =
      [keyEvent BTN_DPAD_RIGHT 0, syncEvent] := by
  decide

/-- C7 (the code at the failing input): when the first read fails and the
second succeeds with report r, Loop goes on and runs a cycle that compares r
with the contents the buffer previous_report had on entry; the sync record is
among the records written. -/
theorem C7_failed_first_read_is_ignored (report previous_report r : Report)
    (rest : List HidRead) :
    (Loop report previous_report []
        (HidRead.error :: HidRead.data r :: HidRead.error :: rest)).events =
      LoopCycle r previous_report [] ∧
    syncEvent ∈ (Loop report previous_report []
        (HidRead.error :: HidRead.data r :: HidRead.error :: rest)).events := by
  rw [Loop_error, LoopWhile_data, LoopWhile_error]
  refine ⟨rfl, ?_⟩
  show syncEvent ∈ LoopCycle r previous_report []
  rw [LoopCycle_blocks]
  simp

/-- C9 (the code at the failing input): Right is held in the first report
(byte 7 = 1) and still held in the next one (byte 7 = 2), and Loop writes a
press of Right in the first cycle. -/
theorem C9_press_for_button_held_at_startup (report previous_report : Report) :
    (setByte zeroReport 7 1) 7 ≠ 0 ∧ (setByte zeroReport 7 2) 7 ≠ 0 ∧
    (Loop report previous_report []
        [HidRead.data (setByte zeroReport 7 1), HidRead.data (setByte zeroReport 7 2),
          HidRead.error]).events =
      [keyEvent BTN_DPAD_RIGHT 1, syncEvent] := by
  rw [Loop_data, LoopWhile_data, LoopWhile_error]
  decide

/-- C10 (counterexample): the sync event type is not among the event types
CreateVirtualDevice registers, and Loop writes a record of that type. -/
theorem C10_sync_type_not_registered :
    ¬ (∀ l, CreateVirtualDevice true "Fake DDR pad" 0x1234 0x5678 = some l →
        ∀ e ∈ (Loop zeroReport zeroReport []
            [HidRead.data zeroReport, HidRead.data zeroReport, HidRead.error]).events,
          e.type ∈ registeredEvbits (beforeCreate l)) := by
  intro h
  have h1 := h _ rfl syncEvent (by decide)
  revert h1
  decide

/-- C10 (amended): CreateVirtualDevice registers, before it creates the
device, the key event type and no other event type, and the eleven button
codes DPAD up, down, left, right, Select, Start, North, South, East, West,
Mode; every record Loop writes is either a key record whose code is one of the
registered codes or the sync record, and every registered code is written by
Loop in some run. -/
theorem C10_key_codes_registered (name : String) (vendor_id product_id : Nat) :
    ∃ l, CreateVirtualDevice true name vendor_id product_id = some l ∧
      l.getLast? = some Ioctl.UI_DEV_CREATE ∧
      registeredEvbits l = [EV_KEY] ∧
      registeredEvbits (beforeCreate l) = [EV_KEY] ∧
      registeredKeybits l = registeredKeybits (beforeCreate l) ∧
      registeredKeybits (beforeCreate l) =
        [BTN_DPAD_UP, BTN_DPAD_DOWN, BTN_DPAD_LEFT, BTN_DPAD_RIGHT, BTN_SELECT, BTN_START,
          BTN_NORTH, BTN_SOUTH, BTN_EAST, BTN_WEST, BTN_MODE] ∧
      (∀ (report previous_report : Report) (script : List HidRead),
        ∀ e ∈ (Loop report previous_report [] script).events,
          (e.type = EV_KEY ∧ e.code ∈ registeredKeybits (beforeCreate l)) ∨ e = syncEvent) ∧
      (∀ code ∈ registeredKeybits (beforeCreate l), ∃ prev curr : Report,
        keyEvent code 1 ∈ (Loop zeroReport zeroReport []
          [HidRead.data prev, HidRead.data curr, HidRead.error]).events) := by
  refine ⟨_, rfl, rfl, rfl, rfl, rfl, rfl, ?_, ?_⟩
  · intro report previous_report script e he
    rcases Loop_mem script report previous_report e he with h | h
    · refine Or.inl ⟨h.1, ?_⟩
      have h2 := h.2
      simp only [specButtonOrder, List.mem_cons, List.mem_singleton, List.not_mem_nil,
        or_false] at h2
      show e.code ∈ [BTN_DPAD_UP, BTN_DPAD_DOWN, BTN_DPAD_LEFT, BTN_DPAD_RIGHT, BTN_SELECT,
        BTN_START, BTN_NORTH, BTN_SOUTH, BTN_EAST, BTN_WEST, BTN_MODE]
      simp only [List.mem_cons, List.mem_singleton, List.not_mem_nil, or_false]
      tauto
    · exact Or.inr h
  · intro code hc
    change code ∈ [BTN_DPAD_UP, BTN_DPAD_DOWN, BTN_DPAD_LEFT, BTN_DPAD_RIGHT, BTN_SELECT,
      BTN_START, BTN_NORTH, BTN_SOUTH, BTN_EAST, BTN_WEST, BTN_MODE] at hc
    simp only [List.mem_cons, List.mem_singleton, List.not_mem_nil, or_false] at hc
    rcases hc with h | h | h | h | h | h | h | h | h | h | h <;> subst h
    · exact ⟨zeroReport, setByte zeroReport 9 1, by decide⟩
    · exact ⟨zeroReport, setByte zeroReport 10 1, by decide⟩
    · exact ⟨zeroReport, setByte zeroReport 8 1, by decide⟩
    · exact ⟨zeroReport, setByte zeroReport 7 1, by decide⟩
    · exact ⟨zeroReport, setByte zeroReport 1 0x01, by decide⟩
    · exact ⟨zeroReport, setByte zeroReport 1 0x02, by decide⟩
    · exact ⟨zeroReport, setByte zeroReport 11 1, by decide⟩
    · exact ⟨zeroReport, setByte zeroReport 13 1, by decide⟩
    · exact ⟨zeroReport, setByte zeroReport 12 1, by decide⟩
    · exact ⟨zeroReport, setByte zeroReport 14 1, by decide⟩
    · exact ⟨zeroReport, setByte zeroReport 1 0x10, by decide⟩

/-- What the code does for a byte-mapped button: a press is written exactly
when the byte grew, a release exactly when the byte shrank. -/
theorem LoopCycle_byte_button (prev curr : Report) (i : Fin 27) (code : Nat)
    (h : specButtonAtOffset i.val = some code) :
    (keyEvent code 1 ∈ LoopCycle curr prev [] ↔ prev i < curr i) ∧
    (keyEvent code 0 ∈ LoopCycle curr prev [] ↔ curr i < prev i) := by
  have hcases : i = 7 ∨ i = 8 ∨ i = 9 ∨ i = 10 ∨ i = 11 ∨ i = 12 ∨ i = 13 ∨ i = 14 := by
    unfold specButtonAtOffset at h
    simp only [Fin.ext_iff]
    have : ((7 : Fin 27) : Nat) = 7 := rfl
    split_ifs at h <;> omega
  rcases hcases with e | e | e | e | e | e | e | e <;> subst e <;>
    (have h2 : code = _ := (Option.some.inj h).symm) <;> subst h2 <;>
    simp [LoopCycle_blocks, check_mem_iff, keyEvent, syncEvent, EV_KEY, EV_SYN, BTN_DPAD_RIGHT,
      BTN_DPAD_LEFT, BTN_DPAD_UP, BTN_DPAD_DOWN, BTN_NORTH, BTN_EAST, BTN_SOUTH, BTN_WEST,
      BTN_START, BTN_SELECT, BTN_MODE]

end KonamiDDRPad
